import Mathlib

/-!
Verification development for the objects-on-shelves channel: a shallow
embedding of the render orchestration (`toybox/nodes/simulation.py`,
`RenderNode.exec` and `render`), the placement nodes
(`toybox/nodes/random_placement.py`) and the weight node
(`example/nodes/weight.py`), together with proofs of the specified
properties.  File paths are modelled relative to the channel output
directory `ctx.output`.
-/

/-- Decimal digit character, modelling the characters produced by python
string formatting of natural numbers (only used for arguments below 10). -/
def digChar (d : Nat) : Char := Char.ofNat (48 + d)

/-- Decimal representation of a natural number as a list of characters,
modelling python `str(n)` for a nonnegative integer. -/
def natRepr (n : Nat) : List Char :=
  if n < 10 then [digChar n]
  else natRepr (n / 10) ++ [digChar (n % 10)]
termination_by n
decreasing_by exact Nat.div_lt_self (by omega) (by omega)

/-- Decimal string of a natural number. -/
def natStr (n : Nat) : String := ⟨natRepr n⟩

/-- Zero padding, modelling python format specifiers such as `03` / `010`. -/
def padZeros (w : Nat) (n : Nat) : String :=
  ⟨List.replicate (w - (natRepr n).length) '0'⟩ ++ natStr n

/-- Model of python `s.replace('#', t)` (used for Blender frame-number
substitution in file-output slot paths). -/
def replaceHash (s t : String) : String :=
  ⟨(s.data.map (fun c => if c = '#' then t.data else [c])).flatten⟩

/-- Model of the glob check `glob.glob('{}-*'.format(pat))` from the cleanup
stage: a file name matches exactly when it starts with `pat ++ "-"`. -/
def globMatch (pat f : String) : Bool := List.isPrefixOf (pat.data ++ ['-']) f.data

/-- `os.path.join(ctx.output, 'images')` prefix (relative to `ctx.output`). -/
def imagesDir : String := "images/"

/-- `os.path.join(ctx.output, 'masks')` prefix (relative to `ctx.output`). -/
def maskDir : String := "masks/"

/-- Render-phase view of an `AnaObject`: the fields of a placed object that
`RenderNode.exec` reads or mutates (`obj.instance`, `obj.root.hide_render`,
`obj.rendered`, `obj.solo_mask_id`). -/
structure AnaObj where
  instanceId : Nat
  hide_render : Bool
  rendered : Bool
  solo_mask_id : String
deriving DecidableEq

/-- Observable side effects of one `RenderNode.exec` run: render calls (with
the render settings, the instance ids of the objects visible to the render,
the compositor mask links that are connected, and the current mask/image
file-output slot paths), the preview-image copy, annotation and metadata
writes, and scratch-file removals. -/
inductive Ev where
  | render (mode : String) (resx resy samples bounces : Nat)
      (visible : List Nat) (links : List Nat) (maskSlot imgSlot : String)
  | copyPreview (src dst : String)
  | annotate (withObstruction : Bool)
  | metadata
  | removeFile (path : String)
deriving DecidableEq

/-- State threaded through `RenderNode.exec`: the placed objects, the render
settings (`scn.render.resolution_x/y`, `scene.cycles.samples/max_bounces`),
the file-output slot paths of `scene.maskout` / `scene.imgout`, the set of
per-object ID-mask compositor links currently connected, whether the render
layer image output is linked, the files on disk, and the event trace. -/
structure RState where
  objects : List AnaObj
  resx : Nat
  resy : Nat
  samples : Nat
  bounces : Nat
  maskSlot : String
  imgSlot : String
  maskLinks : List Nat
  imageLinked : Bool
  files : List String
  events : List Ev
deriving DecidableEq

/-- Instance ids of the objects currently visible to a render call
(those with `hide_render = False`). -/
def visibleIds (objs : List AnaObj) : List Nat :=
  (objs.filter (fun o => !o.hide_render)).map (fun o => o.instanceId)

/-- `numpy.unique(compimg[numpy.nonzero(compimg)])`: the distinct nonzero
pixel values of the combined ID-mask image (membership view). -/
def nonzeroIds (img : List Nat) : List Nat :=
  (img.filter (fun v => v ≠ 0)).dedup

/-- Lines 244-247 of `simulation.py`: hide every object for rendering and
mark the objects whose instance id is absent from the combined ID mask as
not rendered (`obj.rendered = False`). -/
def markRendered (objs : List AnaObj) (img : List Nat) : List AnaObj :=
  objs.map (fun o =>
    { o with
      hide_render := true
      rendered := if (nonzeroIds img).contains o.instanceId then o.rendered else false })

/-- In-place mutation of the object at a given position of the object list
(python mutates the list elements through references). -/
def modifyAt (f : AnaObj → AnaObj) : List AnaObj → Nat → List AnaObj
  | [], _ => []
  | o :: rest, 0 => f o :: rest
  | o :: rest, p + 1 => o :: modifyAt f rest p

/-- Settings mutation of `def render(resolution='high')` in `simulation.py`:
preview mode forces 640x384 when the configured horizontal resolution
exceeds 1000 and uses 8 samples / 6 bounces; high quality uses 15 samples /
12 bounces; every other mode ('masks', 'low') uses 1 sample / 1 bounce. -/
def renderUpd (mode : String) (s : RState) : RState :=
  if mode = "preview" then
    let s1 := if 1000 < s.resx then { s with resx := 640, resy := 384 } else s
    { s1 with samples := 8, bounces := 6 }
  else if mode = "high" then { s with samples := 15, bounces := 12 }
  else { s with samples := 1, bounces := 1 }

/-- A call of `render(resolution=mode)`: update the settings, then perform
the blocking render, recorded as an event capturing the visibility set and
compositor state at the moment of the call. -/
def doRender (mode : String) (s : RState) : RState :=
  let s1 := renderUpd mode s
  { s1 with
    events := s1.events ++
      [Ev.render mode s1.resx s1.resy s1.samples s1.bounces
        (visibleIds s1.objects) s1.maskLinks s1.maskSlot s1.imgSlot] }

/-- `f'obj{obj.instance:03}'`. -/
def soloMaskId (i : Nat) : String := "obj" ++ padZeros 3 i

/-- One iteration of the per-object mask loop (lines 251-267 of
`simulation.py`) for the object at position `p` of the object list:
set its solo mask id, relabel the mask/image output slots with the
per-object suffix, unhide the object, connect its ID-mask link, render at
low quality (writing one mask file and one image file), then re-hide the
object and remove the link. -/
def maskIter (maskpath imgpath : String) (frame : Nat) (s : RState) (p : Nat) : RState :=
  match s.objects[p]? with
  | none => s
  | some obj =>
    let solo := soloMaskId obj.instanceId
    let s1 := { s with
      objects := modifyAt (fun o => { o with solo_mask_id := solo }) s.objects p
      maskSlot := maskpath ++ "-" ++ solo
      imgSlot := imgpath ++ "-" ++ solo }
    let s2 := { s1 with
      objects := modifyAt (fun o => { o with hide_render := false }) s1.objects p }
    let s3 := { s2 with maskLinks := s2.maskLinks ++ [obj.instanceId] }
    let s4 := doRender "low" s3
    let s5 := { s4 with
      files := s4.files ++
        [maskDir ++ replaceHash s4.maskSlot (natStr frame) ++ ".png",
         imagesDir ++ replaceHash s4.imgSlot (natStr frame) ++ ".png"] }
    let s6 := { s5 with
      objects := modifyAt (fun o => { o with hide_render := true }) s5.objects p }
    { s6 with maskLinks := s6.maskLinks.erase obj.instanceId }

/-- The per-object mask loop over the positions of the rendered objects,
in stable input order. -/
def maskLoop (maskpath imgpath : String) (frame : Nat) (ps : List Nat) (s : RState) : RState :=
  ps.foldl (maskIter maskpath imgpath frame) s

/-- Positions (0-indexed) of the objects satisfying a predicate, modelling
iteration over `[obj for obj in objects if ...]` by object identity. -/
def filterPositions (pred : AnaObj → Bool) : List AnaObj → List Nat
  | [] => []
  | o :: rest =>
      if pred o then 0 :: (filterPositions pred rest).map (fun p => p + 1)
      else (filterPositions pred rest).map (fun p => p + 1)

/-- Lines 276-281 of `simulation.py`: remove every file on disk matching
`'{}-*'.format(pat)`. -/
def removeGlob (pat : String) (s : RState) : RState :=
  { s with
    files := s.files.filter (fun f => !globMatch pat f)
    events := s.events ++ (s.files.filter (fun f => globMatch pat f)).map Ev.removeFile }

/-- Inputs of `RenderNode.exec` relevant to the orchestration: the preview
flag `ctx.preview`, the 'Collect Depth and Normal Masks' and 'Calculate
Obstruction' inputs, the pixel values of the combined ID-mask image that is
read back, the current frame `scn.frame_current` and the interpretation
number `ctx.interp_num`. -/
structure RInputs where
  preview : Bool
  collect_depth : String
  calculate_obstruction : String
  compimg : List Nat
  frame : Nat
  interp : Nat

/-- Name of the composite image written by the denoise file-output node
(slot `f'{ctx.interp_num:010}-#-{sensor_name}.png'` under `images/`). -/
def compositeImageFile (inp : RInputs) : String :=
  imagesDir ++ replaceHash (padZeros 10 inp.interp ++ "-#-RGBCamera.png") (natStr inp.frame)

/-- Orchestration of `RenderNode.exec` from the first render call on
(the scene / compositor setup that precedes it only builds graph nodes and
produces no renders, file writes or annotations).  Mirrors lines 155-283 of
`simulation.py`: preview renders once and copies the frame to
`preview.png`; otherwise the composite render runs at high quality, the
per-object mask nodes are in place (`obj.setup_mask()`), the combined mask
render runs (the depth/normal block only adds compositor nodes), and then —
only when 'Calculate Obstruction' is not 'F' — the mask links are detached,
the combined ID-mask image is read back, absent objects are marked not
rendered, the per-object mask loop runs, annotations and metadata are
written with obstruction, and the scratch files are removed.  When
'Calculate Obstruction' is 'F' the annotations and metadata are written
directly and the node returns. -/
def execRender (inp : RInputs) (s0 : RState) : RState :=
  if inp.preview then
    let s := doRender "preview" s0
    { s with
      events := s.events ++
        [Ev.copyPreview
          (imagesDir ++ padZeros 10 inp.interp ++ "-" ++ natStr inp.frame ++ "-RGBCamera.png")
          "preview.png"] }
  else
    let s := doRender "high" s0
    let s := { s with files := s.files ++ [compositeImageFile inp] }
    let s := { s with maskLinks := s.objects.map AnaObj.instanceId }
    let s := doRender "masks" s
    let s := { s with
      files := s.files ++ [maskDir ++ replaceHash s.maskSlot (natStr inp.frame) ++ ".png"] }
    if inp.calculate_obstruction = "F" then
      { s with events := s.events ++ [Ev.annotate false, Ev.metadata] }
    else
      let s := { s with maskLinks := [], imageLinked := false }
      let ids := nonzeroIds inp.compimg
      let ps := filterPositions (fun o => ids.contains o.instanceId) s.objects
      let s := { s with objects := markRendered s.objects inp.compimg }
      let maskpath := s.maskSlot
      let imgpath := s.imgSlot
      let s := maskLoop maskpath imgpath inp.frame ps s
      let s := { s with events := s.events ++ [Ev.annotate true, Ev.metadata] }
      let s := removeGlob (maskDir ++ replaceHash maskpath (natStr inp.frame)) s
      removeGlob (imagesDir ++ replaceHash imgpath (natStr inp.frame)) s

/-- Placement-phase view of a generated object: `obj.root` identity plus the
pose fields the placement nodes write (`root.location`, exact rational
components of the jitter, and `root.rotation_euler`, radians). -/
structure PlacedObj where
  rootId : Nat
  location : ℚ × ℚ × ℚ
  rotation : ℝ × ℝ × ℝ

/-- `math.radians`. -/
noncomputable def radians (d : ℚ) : ℝ := (d : ℝ) * Real.pi / 180

/-- The placement loop of `PlacementOverContainerClass.exec` (lines 47-59 of
`random_placement.py`): for each iteration `ii` the branch generator yields
one object (modelled by the stream `gen`), which receives location
`(0.1*(random()-0.5), 0.1*(random()-0.5), 2+0.1*ii)` and a rotation of
`radians(uniform(0,360))` per axis.  `r` is the stream of `random()` draws
(two per iteration) and `u` the stream of `uniform(0,360)` draws (three per
iteration). -/
noncomputable def containerPlace (gen : Nat → PlacedObj) (r u : Nat → ℚ) (n : Nat) :
    List PlacedObj :=
  (List.range n).map (fun ii =>
    { gen ii with
      location :=
        ((1 / 10 : ℚ) * (r (2 * ii) - 1 / 2),
         (1 / 10 : ℚ) * (r (2 * ii + 1) - 1 / 2),
         2 + (1 / 10 : ℚ) * ii)
      rotation :=
        (radians (u (3 * ii)), radians (u (3 * ii + 1)), radians (u (3 * ii + 2))) })

/-- The placement loop of `RandomPlacementClass.exec` (lines 86-98): the same
as `containerPlace` but with horizontal jitter `0.5*(random()-0.5)`. -/
noncomputable def randomPlace (gen : Nat → PlacedObj) (r u : Nat → ℚ) (n : Nat) :
    List PlacedObj :=
  (List.range n).map (fun ii =>
    { gen ii with
      location :=
        ((1 / 2 : ℚ) * (r (2 * ii) - 1 / 2),
         (1 / 2 : ℚ) * (r (2 * ii + 1) - 1 / 2),
         2 + (1 / 10 : ℚ) * ii)
      rotation :=
        (radians (u (3 * ii)), radians (u (3 * ii + 1)), radians (u (3 * ii + 2))) })

/-- Rigid-body configuration fields set on the floor / container instance
(`rigid_body.type`, `collision_shape`, `use_margin`, `collision_margin`). -/
structure RBConfig where
  rbType : String
  collisionShape : String
  useMargin : Bool
  collisionMargin : ℚ
deriving DecidableEq

/-- The configuration lines 131-134 / 141-144 of `random_placement.py`. -/
def passiveMeshRB : RBConfig := ⟨"PASSIVE", "MESH", true, 1 / 1000⟩

/-- Result of the `drop` function: the rigid-body world setup
(`point_cache.frame_end`, `frame_current`), the object roots linked into
the rigid-body collection in link order, the rigid-body configuration of
the floor and of the optional container, and whether the physics bake ran. -/
structure DropResult where
  frameEnd : Nat
  frameCurrent : Nat
  linked : List Nat
  floorRB : RBConfig
  containerRB : Option RBConfig
  baked : Bool
deriving DecidableEq

/-- Modelled from the spec: `CreateBranchGenerator(...)` followed by
`.exec()` from the anatools library (not under src/): "selects one generator
according to its configured weight (default uniform) and delegates to it,
returning one new Object Instance" and "fails with ConfigurationError if the
generator list is empty".  The weighted selection is abstracted as a choice
index reduced modulo the pool size; an empty pool yields `none`. -/
def branchPick (cands : List Nat) (choice : Nat) : Option Nat :=
  cands[choice % cands.length]?

/-- The `drop` function (lines 105-148 of `random_placement.py`): create the
rigid-body world and collision collection, set the bake frame range to 50,
link every placed object into the collection, link one floor instance picked
by a branch generator and mark it passive with mesh collision and margin
0.001, do the same for one container instance when the container input is
not the empty-string sentinel, then bake the physics.  A branch generator
with no candidates is a fatal failure (`none`). -/
def drop (object_list : List PlacedObj) (floorCands : List Nat) (floorChoice : Nat)
    (containerFirst : String) (containerCands : List Nat) (containerChoice : Nat) :
    Option DropResult :=
  match branchPick floorCands floorChoice with
  | none => none
  | some floorId =>
    let linked := object_list.map PlacedObj.rootId ++ [floorId]
    if containerFirst ≠ "" then
      match branchPick containerCands containerChoice with
      | none => none
      | some containerId =>
          some ⟨50, 50, linked ++ [containerId], passiveMeshRB, some passiveMeshRB, true⟩
    else
      some ⟨50, 50, linked, passiveMeshRB, none, true⟩

/-- Inputs of the placement nodes: the first element of the
'Object Generators' port (the empty string is the "no objects" sentinel),
`int(inputs['Number of Objects'][0])`, the floor-generator candidates with
the branch choice, and the 'Container Generator' port (first element
sentinel, candidates, branch choice). -/
structure PlacementInputs where
  objectGenFirst : String
  numberOfObjects : Nat
  floorCands : List Nat
  floorChoice : Nat
  containerFirst : String
  containerCands : List Nat
  containerChoice : Nat

/-- Output of a placement node: the 'Objects of Interest' port value and the
result of the `drop` call. -/
structure PlacementResult where
  objectsOfInterest : List PlacedObj
  dropResult : Option DropResult

/-- `PlacementOverContainerClass.exec` (lines 32-63 of
`random_placement.py`): clamp the object count to at most 200, run the
placement loop unless the object-generator input is the empty sentinel
(in which case the object list stays empty), then always call `drop`. -/
noncomputable def placementOverContainerExec (inp : PlacementInputs)
    (gen : Nat → PlacedObj) (r u : Nat → ℚ) : PlacementResult :=
  let object_number := min 200 inp.numberOfObjects
  let object_list :=
    if inp.objectGenFirst ≠ "" then containerPlace gen r u object_number else []
  { objectsOfInterest := object_list
    dropResult := drop object_list inp.floorCands inp.floorChoice
      inp.containerFirst inp.containerCands inp.containerChoice }

/-- `RandomPlacementClass.exec` (lines 71-102 of `random_placement.py`). -/
noncomputable def randomPlacementExec (inp : PlacementInputs)
    (gen : Nat → PlacedObj) (r u : Nat → ℚ) : PlacementResult :=
  let object_number := min 200 inp.numberOfObjects
  let object_list :=
    if inp.objectGenFirst ≠ "" then randomPlace gen r u object_number else []
  { objectsOfInterest := object_list
    dropResult := drop object_list inp.floorCands inp.floorChoice
      inp.containerFirst inp.containerCands inp.containerChoice }

/-- A generator handle as seen by the Weight node: only its weight field is
mutated. -/
structure ObjGen where
  gname : String
  weight : ℚ
deriving DecidableEq

/-- Failure kinds of `Weight.exec`: the port-arity check raises ValueError
when the 'Generator' port does not contain exactly one link, and
`float(...)` raises on a non-numeric weight input. -/
inductive WeightErr where
  | portArity
  | valueConversion
deriving DecidableEq

/-- All characters are decimal digits. -/
def allDigits (l : List Char) : Bool := l.all Char.isDigit

/-- Value of a list of decimal digit characters. -/
def digitsToNat (l : List Char) : Nat := l.foldl (fun a c => 10 * a + (c.toNat - 48)) 0

/-- Split a character list at the first '.', when present. -/
def takeTillDot : List Char → List Char × Option (List Char)
  | [] => ([], none)
  | c :: rest =>
      if c = '.' then ([], some rest)
      else
        let r := takeTillDot rest
        (c :: r.1, r.2)

/-- Strip a leading sign character, returning the sign factor. -/
def splitSign : List Char → ℚ × List Char
  | [] => (1, [])
  | c :: rest =>
      if c = '-' then (-1, rest)
      else if c = '+' then (1, rest)
      else (1, c :: rest)

/-- Numeric-string conversion, modelling python `float()` on plain decimal
literals: an optional sign, digits, and at most one decimal point, with at
least one digit position present; everything else fails. -/
def parseDecimal (s : String) : Option ℚ :=
  let sign := (splitSign s.data).1
  let body := (splitSign s.data).2
  match takeTillDot body with
  | (ip, none) =>
      if !ip.isEmpty && allDigits ip then some (sign * digitsToNat ip) else none
  | (ip, some fp) =>
      if (!ip.isEmpty || !fp.isEmpty) && allDigits ip && allDigits fp then
        some (sign * ((digitsToNat ip : ℚ) + (digitsToNat fp : ℚ) / 10 ^ fp.length))
      else none

/-- `Weight.exec` (lines 10-23 of `weight.py`): fail unless the 'Generator'
port has exactly one link; convert the weight input with `float`, failing
without mutating the generator when it is not numeric; otherwise set the
generator's weight in place and return the generator.  The first component
is the generator-port state after the call (mutations included), the second
the outcome. -/
def weightExec (genPort : List ObjGen) (weightInput : String) :
    List ObjGen × Except WeightErr ObjGen :=
  match genPort with
  | [g] =>
      match parseDecimal weightInput with
      | some v => ([{ g with weight := v }], Except.ok { g with weight := v })
      | none => ([g], Except.error WeightErr.valueConversion)
  | gs => (gs, Except.error WeightErr.portArity)

lemma branchPick_mem {cands : List Nat} {choice x : Nat}
    (h : branchPick cands choice = some x) : x ∈ cands := by
  unfold branchPick at h
  exact List.getElem?_mem h

lemma branchPick_isSome {cands : List Nat} (choice : Nat) (h : cands ≠ []) :
    ∃ x, branchPick cands choice = some x := by
  unfold branchPick
  have hlen : 0 < cands.length := List.length_pos.mpr h
  exact ⟨_, List.getElem?_eq_getElem (Nat.mod_lt _ hlen)⟩

/-- C7: the Weight node sets the generator weight to the parsed float of a
numeric weight input and returns the generator; a non-numeric input such as
"abc" yields a value-conversion error without mutating the generator; and
any generator port that does not contain exactly one link fails. -/
theorem weight_node_spec :
    (∀ g : ObjGen, weightExec [g] "2.5" =
        ([{ g with weight := 5 / 2 }], Except.ok { g with weight := 5 / 2 }))
    ∧ (∀ g : ObjGen,
        weightExec [g] "abc" = ([g], Except.error WeightErr.valueConversion))
    ∧ (∀ (gs : List ObjGen) (w : String), gs.length ≠ 1 →
        weightExec gs w = (gs, Except.error WeightErr.portArity)) := by
  refine ⟨fun g => ?_, fun g => ?_, fun gs w h => ?_⟩
  · have hd : "2.5".data = ['2', '.', '5'] := by decide
    have ht : takeTillDot ['2', '.', '5'] = (['2'], some ['5']) := by decide
    have hs : splitSign ['2', '.', '5'] = (1, ['2', '.', '5']) := by decide
    have h2 : digitsToNat ['2'] = 2 := by decide
    have h5 : digitsToNat ['5'] = 5 := by decide
    have h25 : parseDecimal "2.5" = some (5 / 2) := by
      simp only [parseDecimal, hd, ht, hs]
      rw [if_pos (by decide)]
      rw [h2, h5]
      norm_num
    simp [weightExec, h25]
  · have habc : parseDecimal "abc" = none := by decide
    simp [weightExec, habc]
  · match gs with
    | [] => rfl
    | [g] => simp at h
    | g1 :: g2 :: t => rfl

/-- C7 witness: the Weight node behaviour at the concrete generator
⟨"gen", 1⟩ and at an empty generator port. -/
theorem weight_node_spec_witness :
    weightExec [⟨"gen", 1⟩] "2.5" =
        ([⟨"gen", 5 / 2⟩], Except.ok ⟨"gen", 5 / 2⟩)
    ∧ weightExec [⟨"gen", 1⟩] "abc" =
        ([⟨"gen", 1⟩], Except.error WeightErr.valueConversion)
    ∧ weightExec [] "2.5" = ([], Except.error WeightErr.portArity) :=
  ⟨weight_node_spec.1 ⟨"gen", 1⟩, weight_node_spec.2.1 ⟨"gen", 1⟩,
    weight_node_spec.2.2 [] "2.5" (by decide)⟩

/-- C4: each placement node produces exactly min(n, 200) objects of interest
when the first element of the object-generator input is not the empty-string
sentinel, and exactly 0 objects when it is, while the floor/container
physics-drop handling runs in both cases. -/
theorem placement_count_spec (inp : PlacementInputs) (gen : Nat → PlacedObj)
    (r u : Nat → ℚ) :
    (inp.objectGenFirst ≠ "" →
      (placementOverContainerExec inp gen r u).objectsOfInterest.length
          = min inp.numberOfObjects 200
      ∧ (randomPlacementExec inp gen r u).objectsOfInterest.length
          = min inp.numberOfObjects 200)
    ∧ (inp.objectGenFirst = "" →
      (placementOverContainerExec inp gen r u).objectsOfInterest.length = 0
      ∧ (randomPlacementExec inp gen r u).objectsOfInterest.length = 0
      ∧ (placementOverContainerExec inp gen r u).dropResult
          = drop [] inp.floorCands inp.floorChoice inp.containerFirst
              inp.containerCands inp.containerChoice
      ∧ (randomPlacementExec inp gen r u).dropResult
          = drop [] inp.floorCands inp.floorChoice inp.containerFirst
              inp.containerCands inp.containerChoice) := by
  constructor
  · intro h
    simp [placementOverContainerExec, randomPlacementExec, containerPlace,
      randomPlace, h, Nat.min_comm]
  · intro h
    simp [placementOverContainerExec, randomPlacementExec, h]

/-- C4 witness: with a non-sentinel generator input and n = 5 both nodes
place 5 objects; with the sentinel input both place none and still call
`drop`. -/
theorem placement_count_spec_witness :
    ((placementOverContainerExec ⟨"gen", 5, [9], 0, "", [], 0⟩
        (fun k => ⟨k, (0, 0, 0), (0, 0, 0)⟩) (fun _ => 0)
        (fun _ => 0)).objectsOfInterest.length = min 5 200
      ∧ (randomPlacementExec ⟨"gen", 5, [9], 0, "", [], 0⟩
          (fun k => ⟨k, (0, 0, 0), (0, 0, 0)⟩) (fun _ => 0)
          (fun _ => 0)).objectsOfInterest.length = min 5 200)
    ∧ ((placementOverContainerExec ⟨"", 5, [9], 0, "", [], 0⟩
          (fun k => ⟨k, (0, 0, 0), (0, 0, 0)⟩) (fun _ => 0)
          (fun _ => 0)).objectsOfInterest.length = 0
      ∧ (placementOverContainerExec ⟨"", 5, [9], 0, "", [], 0⟩
          (fun k => ⟨k, (0, 0, 0), (0, 0, 0)⟩) (fun _ => 0)
          (fun _ => 0)).dropResult = drop [] [9] 0 "" [] 0) := by
  refine ⟨?_, ?_⟩
  · have h := (placement_count_spec ⟨"gen", 5, [9], 0, "", [], 0⟩
      (fun k => ⟨k, (0, 0, 0), (0, 0, 0)⟩) (fun _ => 0) (fun _ => 0)).1
      (by simp)
    exact ⟨h.1, h.2⟩
  · have h := (placement_count_spec ⟨"", 5, [9], 0, "", [], 0⟩
      (fun k => ⟨k, (0, 0, 0), (0, 0, 0)⟩) (fun _ => 0) (fun _ => 0)).2 rfl
    exact ⟨h.1, h.2.2.1⟩

/-- C5: after Physics Drop every placed object is linked into the rigid-body
collection exactly once, the floor instance picked by the Branch Generator
is configured passive with mesh collision shape and margin 0.001 regardless
of how many floor candidates were supplied, and the same configuration is
applied to one container instance exactly when the container input is not
the empty-string sentinel. -/
theorem drop_rigid_body_spec (objl : List PlacedObj) (fc : List Nat) (fch : Nat)
    (cf : String) (cc : List Nat) (cch : Nat)
    (hfc : fc ≠ [])
    (hcc : cf ≠ "" → cc ≠ [])
    (hnd : (objl.map PlacedObj.rootId).Nodup)
    (hf : ∀ c ∈ fc, c ∉ objl.map PlacedObj.rootId)
    (hc : ∀ c ∈ cc, c ∉ objl.map PlacedObj.rootId) :
    ∃ res, drop objl fc fch cf cc cch = some res
      ∧ (∀ o ∈ objl, res.linked.count o.rootId = 1)
      ∧ res.floorRB = passiveMeshRB
      ∧ (res.containerRB = some passiveMeshRB ↔ cf ≠ "")
      ∧ res.baked = true := by
  obtain ⟨floorId, hfl⟩ := branchPick_isSome fch hfc
  have hflmem := branchPick_mem hfl
  by_cases hcf : cf = ""
  · subst hcf
    refine ⟨⟨50, 50, objl.map PlacedObj.rootId ++ [floorId],
      passiveMeshRB, none, true⟩, ?_, ?_, rfl, by simp, rfl⟩
    · simp [drop, hfl]
    · intro o ho
      have hmem : o.rootId ∈ objl.map PlacedObj.rootId := List.mem_map_of_mem _ ho
      have hne : floorId ≠ o.rootId := fun h => hf floorId hflmem (h ▸ hmem)
      simp [List.count_append, List.count_eq_one_of_mem hnd hmem,
        List.count_singleton', hne]
  · obtain ⟨contId, hcl⟩ := branchPick_isSome cch (hcc hcf)
    have hclmem := branchPick_mem hcl
    refine ⟨⟨50, 50, objl.map PlacedObj.rootId ++ [floorId] ++ [contId],
      passiveMeshRB, some passiveMeshRB, true⟩, ?_, ?_, rfl, by simp [hcf], rfl⟩
    · simp [drop, hfl, hcl, hcf]
    · intro o ho
      have hmem : o.rootId ∈ objl.map PlacedObj.rootId := List.mem_map_of_mem _ ho
      have hnef : floorId ≠ o.rootId := fun h => hf floorId hflmem (h ▸ hmem)
      have hnec : contId ≠ o.rootId := fun h => hc contId hclmem (h ▸ hmem)
      have h0 : List.count o.rootId [floorId, contId] = 0 :=
        List.count_eq_zero.mpr (by simp [Ne.symm hnef, Ne.symm hnec])
      rw [List.append_assoc]
      simp [List.count_append, List.count_eq_one_of_mem hnd hmem, h0,
        List.count_singleton', hnef, hnec]

/-- C5 witness: two placed objects, two floor candidates, no container. -/
theorem drop_rigid_body_spec_witness :
    ∃ res, drop [⟨1, (0, 0, 0), (0, 0, 0)⟩, ⟨2, (0, 0, 0), (0, 0, 0)⟩]
        [7, 8] 1 "" [] 0 = some res
      ∧ (∀ o ∈ [(⟨1, (0, 0, 0), (0, 0, 0)⟩ : PlacedObj), ⟨2, (0, 0, 0), (0, 0, 0)⟩],
          res.linked.count o.rootId = 1)
      ∧ res.floorRB = passiveMeshRB
      ∧ (res.containerRB = some passiveMeshRB ↔ ("" : String) ≠ "")
      ∧ res.baked = true := by
  refine drop_rigid_body_spec _ _ _ _ _ _ (by simp) (fun h => absurd rfl h) ?_ ?_ ?_
  · simp
  · intro c hcm
    simp at hcm
    rcases hcm with h | h <;> simp [h]
  · intro c hcm
    simp at hcm

/-- C1: given objects that all start marked rendered, MaskDiscovery leaves an
object marked not-rendered if and only if its instance id is absent from the
set of distinct nonzero pixel values of the combined ID-mask image. -/
theorem mask_discovery_spec (objs : List AnaObj) (img : List Nat)
    (hstart : ∀ o ∈ objs, o.rendered = true) :
    ∀ o ∈ markRendered objs img,
      (o.rendered = false ↔ o.instanceId ∉ nonzeroIds img) := by
  intro o ho
  simp only [markRendered, List.mem_map] at ho
  obtain ⟨o', ho', rfl⟩ := ho
  by_cases hmem : o'.instanceId ∈ nonzeroIds img
  · have hcont : (nonzeroIds img).contains o'.instanceId = true :=
      List.elem_iff.mpr hmem
    simp [hcont, hmem, hstart o' ho']
  · have hcont : (nonzeroIds img).contains o'.instanceId = false := by
      simp [List.elem_iff, hmem]
    simp [hcont, hmem]

/-- C1 witness: with mask pixel ids 3 and 7 and objects with instance ids
1, 3, 5, 7 (all initially rendered), exactly the objects with ids 3 and 7
remain marked rendered. -/
theorem mask_discovery_spec_witness :
    (∀ o ∈ [(⟨1, false, true, ""⟩ : AnaObj), ⟨3, false, true, ""⟩,
        ⟨5, false, true, ""⟩, ⟨7, false, true, ""⟩], o.rendered = true)
    ∧ (∀ o ∈ markRendered
        [⟨1, false, true, ""⟩, ⟨3, false, true, ""⟩,
          ⟨5, false, true, ""⟩, ⟨7, false, true, ""⟩] [0, 3, 7, 3, 0],
        (o.rendered = false ↔ o.instanceId ∉ nonzeroIds [0, 3, 7, 3, 0])) :=
  ⟨by decide, mask_discovery_spec _ _ (by decide)⟩

/-- C6: in placement iteration i (0-indexed) the containerized variant draws
each horizontal coordinate uniformly within ±0.05 (= 1/20) and the random
variant within ±0.25 (= 1/4), both at height 2 + 0.1·i, and each rotation
axis is the radian conversion of a uniform 0–360 degree draw. -/
theorem placement_pose_spec (inp : PlacementInputs) (gen : Nat → PlacedObj)
    (r u : Nat → ℚ)
    (hr : ∀ k, 0 ≤ r k ∧ r k < 1)
    (hu : ∀ k, 0 ≤ u k ∧ u k ≤ 360)
    (hg : inp.objectGenFirst ≠ "")
    (i : Nat) (hi : i < min 200 inp.numberOfObjects) :
    (∃ o, (placementOverContainerExec inp gen r u).objectsOfInterest[i]? = some o
      ∧ o.location = ((1 / 10 : ℚ) * (r (2 * i) - 1 / 2),
          (1 / 10 : ℚ) * (r (2 * i + 1) - 1 / 2), 2 + (1 / 10 : ℚ) * i)
      ∧ -(1 / 20 : ℚ) ≤ o.location.1 ∧ o.location.1 ≤ 1 / 20
      ∧ -(1 / 20 : ℚ) ≤ o.location.2.1 ∧ o.location.2.1 ≤ 1 / 20
      ∧ o.rotation = (radians (u (3 * i)), radians (u (3 * i + 1)),
          radians (u (3 * i + 2)))
      ∧ 0 ≤ u (3 * i) ∧ u (3 * i) ≤ 360)
    ∧ (∃ o, (randomPlacementExec inp gen r u).objectsOfInterest[i]? = some o
      ∧ o.location = ((1 / 2 : ℚ) * (r (2 * i) - 1 / 2),
          (1 / 2 : ℚ) * (r (2 * i + 1) - 1 / 2), 2 + (1 / 10 : ℚ) * i)
      ∧ -(1 / 4 : ℚ) ≤ o.location.1 ∧ o.location.1 ≤ 1 / 4
      ∧ -(1 / 4 : ℚ) ≤ o.location.2.1 ∧ o.location.2.1 ≤ 1 / 4
      ∧ o.rotation = (radians (u (3 * i)), radians (u (3 * i + 1)),
          radians (u (3 * i + 2)))) := by
  have h2i := hr (2 * i)
  have h2i1 := hr (2 * i + 1)
  constructor
  · have hc : (placementOverContainerExec inp gen r u).objectsOfInterest[i]? =
        some { gen i with
          location := ((1 / 10 : ℚ) * (r (2 * i) - 1 / 2),
            (1 / 10 : ℚ) * (r (2 * i + 1) - 1 / 2), 2 + (1 / 10 : ℚ) * i)
          rotation := (radians (u (3 * i)), radians (u (3 * i + 1)),
            radians (u (3 * i + 2))) } := by
      simp only [placementOverContainerExec, hg, ne_eq, not_false_iff, if_true,
        containerPlace, List.getElem?_map, List.getElem?_range hi]
      rfl
    refine ⟨_, hc, rfl, ?_, ?_, ?_, ?_, rfl, (hu (3 * i)).1, (hu (3 * i)).2⟩
    · dsimp only
      nlinarith [h2i.1, h2i.2]
    · dsimp only
      nlinarith [h2i.1, h2i.2]
    · dsimp only
      nlinarith [h2i1.1, h2i1.2]
    · dsimp only
      nlinarith [h2i1.1, h2i1.2]
  · have hc : (randomPlacementExec inp gen r u).objectsOfInterest[i]? =
        some { gen i with
          location := ((1 / 2 : ℚ) * (r (2 * i) - 1 / 2),
            (1 / 2 : ℚ) * (r (2 * i + 1) - 1 / 2), 2 + (1 / 10 : ℚ) * i)
          rotation := (radians (u (3 * i)), radians (u (3 * i + 1)),
            radians (u (3 * i + 2))) } := by
      simp only [randomPlacementExec, hg, ne_eq, not_false_iff, if_true,
        randomPlace, List.getElem?_map, List.getElem?_range hi]
      rfl
    refine ⟨_, hc, rfl, ?_, ?_, ?_, ?_, rfl⟩
    · dsimp only
      nlinarith [h2i.1, h2i.2]
    · dsimp only
      nlinarith [h2i.1, h2i.2]
    · dsimp only
      nlinarith [h2i1.1, h2i1.2]
    · dsimp only
      nlinarith [h2i1.1, h2i1.2]

/-- C6 witness: the pose of the object placed at iteration 1 with constant
zero random draws, for both placement variants. -/
theorem placement_pose_spec_witness :
    (∃ o, (placementOverContainerExec ⟨"gen", 5, [9], 0, "", [], 0⟩
        (fun k => ⟨k, (0, 0, 0), (0, 0, 0)⟩) (fun _ => 0)
        (fun _ => 0)).objectsOfInterest[1]? = some o
      ∧ o.location = ((1 / 10 : ℚ) * ((0 : ℚ) - 1 / 2),
          (1 / 10 : ℚ) * ((0 : ℚ) - 1 / 2), 2 + (1 / 10 : ℚ) * 1)
      ∧ -(1 / 20 : ℚ) ≤ o.location.1 ∧ o.location.1 ≤ 1 / 20
      ∧ -(1 / 20 : ℚ) ≤ o.location.2.1 ∧ o.location.2.1 ≤ 1 / 20
      ∧ o.rotation = (radians 0, radians 0, radians 0)
      ∧ (0 : ℚ) ≤ 0 ∧ (0 : ℚ) ≤ 360)
    ∧ (∃ o, (randomPlacementExec ⟨"gen", 5, [9], 0, "", [], 0⟩
        (fun k => ⟨k, (0, 0, 0), (0, 0, 0)⟩) (fun _ => 0)
        (fun _ => 0)).objectsOfInterest[1]? = some o
      ∧ o.location = ((1 / 2 : ℚ) * ((0 : ℚ) - 1 / 2),
          (1 / 2 : ℚ) * ((0 : ℚ) - 1 / 2), 2 + (1 / 10 : ℚ) * 1)
      ∧ -(1 / 4 : ℚ) ≤ o.location.1 ∧ o.location.1 ≤ 1 / 4
      ∧ -(1 / 4 : ℚ) ≤ o.location.2.1 ∧ o.location.2.1 ≤ 1 / 4
      ∧ o.rotation = (radians 0, radians 0, radians 0)) :=
  placement_pose_spec ⟨"gen", 5, [9], 0, "", [], 0⟩
    (fun k => ⟨k, (0, 0, 0), (0, 0, 0)⟩) (fun _ => 0) (fun _ => 0)
    (fun _ => ⟨le_refl 0, zero_lt_one⟩) (fun _ => ⟨le_refl 0, by simp⟩)
    (by simp) 1 (by decide)

/-- Instance id of the object at a position (0 when out of range; every use
below is guarded by a bound). -/
def idAt (objs : List AnaObj) (p : Nat) : Nat :=
  ((objs[p]?).map AnaObj.instanceId).getD 0

/-- The render event recorded by one per-object mask render. -/
def lowEv (mp ip : String) (rx ry i : Nat) : Ev :=
  Ev.render "low" rx ry 1 1 [i] [i] (mp ++ "-" ++ soloMaskId i) (ip ++ "-" ++ soloMaskId i)

/-- The two scratch files written by one per-object mask render. -/
def lowFiles (mp ip : String) (frame i : Nat) : List String :=
  [maskDir ++ replaceHash (mp ++ "-" ++ soloMaskId i) (natStr frame) ++ ".png",
   imagesDir ++ replaceHash (ip ++ "-" ++ soloMaskId i) (natStr frame) ++ ".png"]

lemma renderUpd_low (s : RState) :
    renderUpd "low" s = { s with samples := 1, bounces := 1 } := rfl

lemma renderUpd_masks (s : RState) :
    renderUpd "masks" s = { s with samples := 1, bounces := 1 } := rfl

lemma renderUpd_high (s : RState) :
    renderUpd "high" s = { s with samples := 15, bounces := 12 } := rfl

lemma modifyAt_length (f : AnaObj → AnaObj) (l : List AnaObj) (p : Nat) :
    (modifyAt f l p).length = l.length := by
  induction l generalizing p with
  | nil => rfl
  | cons o rest ih => cases p <;> simp [modifyAt, ih]

lemma modifyAt_map {α : Type} (f : AnaObj → AnaObj) {g : AnaObj → α}
    (hg : ∀ o, g (f o) = g o) (l : List AnaObj) (p : Nat) :
    (modifyAt f l p).map g = l.map g := by
  induction l generalizing p with
  | nil => rfl
  | cons o rest ih => cases p <;> simp [modifyAt, ih, hg]

lemma mem_modifyAt {f : AnaObj → AnaObj} {l : List AnaObj} {p : Nat} {o : AnaObj}
    (h : o ∈ modifyAt f l p) : o ∈ l ∨ ∃ o' ∈ l, o = f o' := by
  induction l generalizing p with
  | nil => simp [modifyAt] at h
  | cons a rest ih =>
      cases p with
      | zero =>
          simp only [modifyAt, List.mem_cons] at h
          rcases h with h | h
          · exact Or.inr ⟨a, List.mem_cons_self a rest, h⟩
          · exact Or.inl (List.mem_cons_of_mem a h)
      | succ q =>
          simp only [modifyAt, List.mem_cons] at h
          rcases h with h | h
          · exact Or.inl (h ▸ List.mem_cons_self a rest)
          · rcases ih h with h2 | ⟨o', ho', rfl⟩
            · exact Or.inl (List.mem_cons_of_mem a h2)
            · exact Or.inr ⟨o', List.mem_cons_of_mem a ho', rfl⟩

lemma allHidden_modifyAt {f : AnaObj → AnaObj} {l : List AnaObj} {p : Nat}
    (hall : ∀ o ∈ l, o.hide_render = true) (hf : ∀ o, (f o).hide_render = true) :
    ∀ o ∈ modifyAt f l p, o.hide_render = true := by
  intro o ho
  rcases mem_modifyAt ho with h | ⟨o', _, rfl⟩
  · exact hall o h
  · exact hf o'

lemma modifyAt_modifyAt (f g : AnaObj → AnaObj) (l : List AnaObj) (p : Nat) :
    modifyAt f (modifyAt g l p) p = modifyAt (fun o => f (g o)) l p := by
  induction l generalizing p with
  | nil => rfl
  | cons o rest ih => cases p <;> simp [modifyAt, ih]

lemma visibleIds_eq_nil {l : List AnaObj} (h : ∀ o ∈ l, o.hide_render = true) :
    visibleIds l = [] := by
  induction l with
  | nil => rfl
  | cons o rest ih =>
      have ho := h o (List.mem_cons_self o rest)
      have hrest := ih (fun o' h' => h o' (List.mem_cons_of_mem o h'))
      simp only [visibleIds, List.filter_cons, ho] at hrest ⊢
      simpa using hrest

lemma visibleIds_modifyAt {f : AnaObj → AnaObj} {l : List AnaObj} {p : Nat}
    (hall : ∀ o ∈ l, o.hide_render = true) (hp : p < l.length)
    (hf : ∀ o, (f o).hide_render = false)
    (hid : ∀ o, (f o).instanceId = o.instanceId) :
    visibleIds (modifyAt f l p) = [idAt l p] := by
  induction l generalizing p with
  | nil => simp at hp
  | cons o rest ih =>
      cases p with
      | zero =>
          have hrest : visibleIds rest = [] :=
            visibleIds_eq_nil (fun o' h' => hall o' (List.mem_cons_of_mem o h'))
          simp only [visibleIds] at hrest
          simp only [modifyAt, visibleIds, List.filter_cons, hf o]
          simp [hrest, hid o, idAt]
      | succ q =>
          have ho := hall o (List.mem_cons_self o rest)
          have hq : q < rest.length := by simpa using hp
          have hrec := ih (fun o' h' => hall o' (List.mem_cons_of_mem o h')) hq
          simp only [visibleIds, idAt] at hrec
          simp only [modifyAt, visibleIds, List.filter_cons, ho, idAt]
          simpa using hrec

lemma maskIter_spec (mp ip : String) (fr : Nat) (s : RState) (p : Nat)
    (hall : ∀ o ∈ s.objects, o.hide_render = true)
    (hml : s.maskLinks = [])
    (hp : p < s.objects.length) :
    (maskIter mp ip fr s p).events
        = s.events ++ [lowEv mp ip s.resx s.resy (idAt s.objects p)]
    ∧ (maskIter mp ip fr s p).files
        = s.files ++ lowFiles mp ip fr (idAt s.objects p)
    ∧ (∀ o ∈ (maskIter mp ip fr s p).objects, o.hide_render = true)
    ∧ (maskIter mp ip fr s p).objects.map AnaObj.instanceId
        = s.objects.map AnaObj.instanceId
    ∧ (maskIter mp ip fr s p).maskLinks = []
    ∧ (maskIter mp ip fr s p).resx = s.resx
    ∧ (maskIter mp ip fr s p).resy = s.resy := by
  obtain ⟨obj, ho⟩ : ∃ o, s.objects[p]? = some o :=
    ⟨_, List.getElem?_eq_getElem hp⟩
  have hid : idAt s.objects p = obj.instanceId := by simp [idAt, ho]
  have hvis : visibleIds (modifyAt (fun o => { o with hide_render := false })
      (modifyAt (fun o => { o with solo_mask_id := soloMaskId obj.instanceId })
        s.objects p) p)
      = [idAt s.objects p] := by
    rw [modifyAt_modifyAt]
    exact visibleIds_modifyAt hall hp (fun o => rfl) (fun o => rfl)
  refine ⟨?_, ?_, ?_, ?_, ?_, ?_, ?_⟩
  · simp only [maskIter, ho, doRender, renderUpd_low]
    simp [lowEv, hvis, hml, hid]
  · simp only [maskIter, ho, doRender, renderUpd_low]
    simp [lowFiles, hid]
  · simp only [maskIter, ho, doRender, renderUpd_low]
    rw [modifyAt_modifyAt, modifyAt_modifyAt]
    exact allHidden_modifyAt hall (fun o => rfl)
  · simp only [maskIter, ho, doRender, renderUpd_low]
    rw [modifyAt_modifyAt, modifyAt_modifyAt]
    apply modifyAt_map
    intro o
    rfl
  · simp only [maskIter, ho, doRender, renderUpd_low]
    simp [hml]
  · simp only [maskIter, ho, doRender, renderUpd_low]
  · simp only [maskIter, ho, doRender, renderUpd_low]

lemma idAt_eq_of_map_eq {l₁ l₂ : List AnaObj}
    (h : l₁.map AnaObj.instanceId = l₂.map AnaObj.instanceId) (q : Nat) :
    idAt l₁ q = idAt l₂ q := by
  have h1 : (l₁.map AnaObj.instanceId)[q]? = (l₂.map AnaObj.instanceId)[q]? := by rw [h]
  rw [List.getElem?_map, List.getElem?_map] at h1
  simpa [idAt] using congrArg (fun x => x.getD 0) h1

lemma maskLoop_spec (mp ip : String) (fr : Nat) :
    ∀ (ps : List Nat) (s : RState),
      (∀ o ∈ s.objects, o.hide_render = true) →
      s.maskLinks = [] →
      (∀ p ∈ ps, p < s.objects.length) →
      (maskLoop mp ip fr ps s).events
          = s.events ++ ps.map (fun p => lowEv mp ip s.resx s.resy (idAt s.objects p))
      ∧ (maskLoop mp ip fr ps s).files
          = s.files ++ (ps.map (fun p => lowFiles mp ip fr (idAt s.objects p))).flatten
      ∧ (∀ o ∈ (maskLoop mp ip fr ps s).objects, o.hide_render = true)
      ∧ (maskLoop mp ip fr ps s).objects.map AnaObj.instanceId
          = s.objects.map AnaObj.instanceId := by
  intro ps
  induction ps with
  | nil =>
      intro s h1 h2 h3
      exact ⟨by simp [maskLoop], by simp [maskLoop], h1, rfl⟩
  | cons p ps ih =>
      intro s h1 h2 h3
      have hp : p < s.objects.length := h3 p (List.mem_cons_self p ps)
      obtain ⟨he, hf, hhid, hmap, hml, hrx, hry⟩ := maskIter_spec mp ip fr s p h1 h2 hp
      have hloop : maskLoop mp ip fr (p :: ps) s
          = maskLoop mp ip fr ps (maskIter mp ip fr s p) := rfl
      have hlen : (maskIter mp ip fr s p).objects.length = s.objects.length := by
        have := congrArg List.length hmap
        simpa using this
      have hbound : ∀ q ∈ ps, q < (maskIter mp ip fr s p).objects.length :=
        fun q hq => hlen ▸ h3 q (List.mem_cons_of_mem p hq)
      obtain ⟨ihe, ihf, ihh, ihm⟩ := ih (maskIter mp ip fr s p) hhid hml hbound
      have hidAt : ∀ q, idAt (maskIter mp ip fr s p).objects q = idAt s.objects q :=
        idAt_eq_of_map_eq hmap
      refine ⟨?_, ?_, ?_, ?_⟩
      · rw [hloop, ihe, he, hrx, hry]
        simp only [hidAt]
        simp [List.map_cons]
      · rw [hloop, ihf, hf]
        simp only [hidAt]
        simp [List.map_cons]
      · rw [hloop]
        exact ihh
      · rw [hloop, ihm, hmap]

lemma markRendered_allHidden (objs : List AnaObj) (img : List Nat) :
    ∀ o ∈ markRendered objs img, o.hide_render = true := by
  intro o ho
  simp only [markRendered, List.mem_map] at ho
  obtain ⟨o', _, rfl⟩ := ho
  rfl

lemma markRendered_map_id (objs : List AnaObj) (img : List Nat) :
    (markRendered objs img).map AnaObj.instanceId = objs.map AnaObj.instanceId := by
  unfold markRendered
  rw [List.map_map]
  apply List.map_congr_left
  intro o _
  rfl

lemma filterPositions_lt (pred : AnaObj → Bool) (l : List AnaObj) :
    ∀ p ∈ filterPositions pred l, p < l.length := by
  induction l with
  | nil => simp [filterPositions]
  | cons o rest ih =>
      intro p hp
      by_cases hpred : pred o
      · simp only [filterPositions, hpred, if_true, List.mem_cons, List.mem_map] at hp
        rcases hp with rfl | ⟨q, hq, rfl⟩
        · simp
        · have := ih q hq
          simp
          omega
      · simp only [filterPositions, hpred, if_false, List.mem_map,
          Bool.false_eq_true] at hp
        obtain ⟨q, hq, rfl⟩ := hp
        have := ih q hq
        simp
        omega

lemma filterPositions_map_idAt (pred : AnaObj → Bool) (l : List AnaObj) :
    (filterPositions pred l).map (idAt l)
      = (l.filter pred).map AnaObj.instanceId := by
  induction l with
  | nil => simp [filterPositions]
  | cons o rest ih =>
      have hshift : ∀ q : Nat, idAt (o :: rest) (q + 1) = idAt rest q := by
        intro q
        simp [idAt]
      by_cases hpred : pred o
      · simp only [filterPositions, hpred, if_true, List.map_cons, List.map_map,
          List.filter_cons, Function.comp]
        have hhead : idAt (o :: rest) 0 = o.instanceId := by simp [idAt]
        rw [hhead]
        congr 1
        have hcomp : List.map (idAt (o :: rest) ∘ fun p => p + 1)
            (filterPositions pred rest)
            = List.map (idAt rest) (filterPositions pred rest) :=
          List.map_congr_left (fun q _ => hshift q)
        rw [hcomp]
        exact ih
      · simp only [filterPositions, hpred, if_false, List.map_map,
          List.filter_cons, Bool.false_eq_true, Function.comp]
        have hcomp : List.map (idAt (o :: rest) ∘ fun p => p + 1)
            (filterPositions pred rest)
            = List.map (idAt rest) (filterPositions pred rest) :=
          List.map_congr_left (fun q _ => hshift q)
        rw [hcomp]
        exact ih

/-- Initial render state: objects, resolution, cycle settings, the
mask/image file-output slot paths created by `AnaScene`, the initial mask
links, image link, and files on disk; no events recorded yet. -/
def initState (objs : List AnaObj) (rx ry sm bo : Nat) (ms imgs : String)
    (ml : List Nat) (il : Bool) (fs : List String) : RState :=
  ⟨objs, rx, ry, sm, bo, ms, imgs, ml, il, fs, []⟩

/-- Instance ids of the objects whose id occurs in the combined ID-mask
image (the ids of `renderedobjects`, in stable input order). -/
def renderedIdsOf (objs : List AnaObj) (img : List Nat) : List Nat :=
  (objs.filter (fun o => (nonzeroIds img).contains o.instanceId)).map AnaObj.instanceId

lemma execRender_chain (objs : List AnaObj) (rx ry sm bo : Nat) (ms imgs : String)
    (ml : List Nat) (il : Bool) (fs : List String) (inp : RInputs)
    (hpre : inp.preview = false) (hco : inp.calculate_obstruction ≠ "F") :
    execRender inp (initState objs rx ry sm bo ms imgs ml il fs)
      = removeGlob (imagesDir ++ replaceHash imgs (natStr inp.frame))
          (removeGlob (maskDir ++ replaceHash ms (natStr inp.frame))
            (let sG := maskLoop ms imgs inp.frame
                (filterPositions
                  (fun o => (nonzeroIds inp.compimg).contains o.instanceId) objs)
                ⟨markRendered objs inp.compimg, rx, ry, 1, 1, ms, imgs, [], false,
                  fs ++ [compositeImageFile inp]
                    ++ [maskDir ++ replaceHash ms (natStr inp.frame) ++ ".png"],
                  [Ev.render "high" rx ry 15 12 (visibleIds objs) ml ms imgs,
                   Ev.render "masks" rx ry 1 1 (visibleIds objs)
                     (objs.map AnaObj.instanceId) ms imgs]⟩;
              { sG with events := sG.events ++ [Ev.annotate true, Ev.metadata] })) := by
  unfold execRender
  rw [hpre]
  rw [if_neg (by simp)]
  rw [if_neg hco]
  rfl

/-- Scratch files written by the per-object mask loop. -/
def scratchFiles (ms imgs : String) (fr : Nat) (ids : List Nat) : List String :=
  (ids.map (fun i => lowFiles ms imgs fr i)).flatten

/-- Files on disk at the moment Cleanup starts: the input files, the
composite image, the combined ID mask, and the per-object scratch files. -/
def preCleanupFiles (fs : List String) (inp : RInputs) (ms imgs : String)
    (objs : List AnaObj) : List String :=
  fs ++ [compositeImageFile inp]
    ++ [maskDir ++ replaceHash ms (natStr inp.frame) ++ ".png"]
    ++ scratchFiles ms imgs inp.frame (renderedIdsOf objs inp.compimg)

lemma execRender_run (objs : List AnaObj) (rx ry sm bo : Nat) (ms imgs : String)
    (ml : List Nat) (il : Bool) (fs : List String) (inp : RInputs)
    (hpre : inp.preview = false) (hco : inp.calculate_obstruction ≠ "F") :
    (execRender inp (initState objs rx ry sm bo ms imgs ml il fs)).events
      = [Ev.render "high" rx ry 15 12 (visibleIds objs) ml ms imgs,
         Ev.render "masks" rx ry 1 1 (visibleIds objs)
           (objs.map AnaObj.instanceId) ms imgs]
        ++ (renderedIdsOf objs inp.compimg).map (fun i => lowEv ms imgs rx ry i)
        ++ [Ev.annotate true, Ev.metadata]
        ++ ((preCleanupFiles fs inp ms imgs objs).filter
            (fun f => globMatch (maskDir ++ replaceHash ms (natStr inp.frame)) f)).map
            Ev.removeFile
        ++ (((preCleanupFiles fs inp ms imgs objs).filter
            (fun f => !globMatch (maskDir ++ replaceHash ms (natStr inp.frame)) f)).filter
            (fun f => globMatch (imagesDir ++ replaceHash imgs (natStr inp.frame)) f)).map
            Ev.removeFile
    ∧ (execRender inp (initState objs rx ry sm bo ms imgs ml il fs)).files
      = ((preCleanupFiles fs inp ms imgs objs).filter
          (fun f => !globMatch (maskDir ++ replaceHash ms (natStr inp.frame)) f)).filter
          (fun f => !globMatch (imagesDir ++ replaceHash imgs (natStr inp.frame)) f)
    ∧ (∀ o ∈ (execRender inp (initState objs rx ry sm bo ms imgs ml il fs)).objects,
        o.hide_render = true)
    ∧ (execRender inp (initState objs rx ry sm bo ms imgs ml il fs)).objects.map
        AnaObj.instanceId = objs.map AnaObj.instanceId := by
  rw [execRender_chain objs rx ry sm bo ms imgs ml il fs inp hpre hco]
  have hall : ∀ o ∈ (markRendered objs inp.compimg), o.hide_render = true :=
    markRendered_allHidden objs inp.compimg
  have hidAt : ∀ q, idAt (markRendered objs inp.compimg) q = idAt objs q :=
    idAt_eq_of_map_eq (markRendered_map_id objs inp.compimg)
  have hlen : (markRendered objs inp.compimg).length = objs.length := by
    simp [markRendered]
  have hbound : ∀ p ∈ filterPositions
      (fun o => (nonzeroIds inp.compimg).contains o.instanceId) objs,
      p < (markRendered objs inp.compimg).length := by
    intro p hp
    rw [hlen]
    exact filterPositions_lt _ _ p hp
  obtain ⟨hle, hlf, hlh, hlm⟩ := maskLoop_spec ms imgs inp.frame
    (filterPositions (fun o => (nonzeroIds inp.compimg).contains o.instanceId) objs)
    ⟨markRendered objs inp.compimg, rx, ry, 1, 1, ms, imgs, [], false,
      fs ++ [compositeImageFile inp]
        ++ [maskDir ++ replaceHash ms (natStr inp.frame) ++ ".png"],
      [Ev.render "high" rx ry 15 12 (visibleIds objs) ml ms imgs,
       Ev.render "masks" rx ry 1 1 (visibleIds objs)
         (objs.map AnaObj.instanceId) ms imgs]⟩
    hall rfl hbound
  dsimp only at hle hlf
  have hevmap : (filterPositions
        (fun o => (nonzeroIds inp.compimg).contains o.instanceId) objs).map
        (fun p => lowEv ms imgs rx ry (idAt (markRendered objs inp.compimg) p))
      = (renderedIdsOf objs inp.compimg).map (fun i => lowEv ms imgs rx ry i) := by
    simp only [hidAt, renderedIdsOf]
    rw [← filterPositions_map_idAt (fun o => (nonzeroIds inp.compimg).contains o.instanceId) objs]
    rw [List.map_map]
    exact List.map_congr_left (fun p hp => rfl)
  have hfmap : (filterPositions
        (fun o => (nonzeroIds inp.compimg).contains o.instanceId) objs).map
        (fun p => lowFiles ms imgs inp.frame (idAt (markRendered objs inp.compimg) p))
      = (renderedIdsOf objs inp.compimg).map
          (fun i => lowFiles ms imgs inp.frame i) := by
    simp only [hidAt, renderedIdsOf]
    rw [← filterPositions_map_idAt (fun o => (nonzeroIds inp.compimg).contains o.instanceId) objs]
    rw [List.map_map]
    exact List.map_congr_left (fun p hp => rfl)
  rw [hevmap] at hle
  rw [hfmap] at hlf
  refine ⟨?_, ?_, ?_, ?_⟩
  · simp only [removeGlob]
    simp only [hle, hlf]
    simp [preCleanupFiles, scratchFiles, List.append_assoc]
  · simp only [removeGlob]
    simp only [hlf]
    simp [preCleanupFiles, scratchFiles, List.append_assoc]
  · simp only [removeGlob]
    exact hlh
  · simp only [removeGlob]
    rw [hlm]
    exact markRendered_map_id objs inp.compimg

/-- Recognizer for per-object ('low') mask render events. -/
def isLowRender : Ev → Bool
  | Ev.render m _ _ _ _ _ _ _ _ => m == "low"
  | _ => false

/-- Recognizer for the combined-mask ('masks') render event. -/
def isMasksRender : Ev → Bool
  | Ev.render m _ _ _ _ _ _ _ _ => m == "masks"
  | _ => false

/-- Recognizer for cleanup file-removal events. -/
def isRemoveFile : Ev → Bool
  | Ev.removeFile _ => true
  | _ => false

/-- C10: after a full (non-preview, obstruction-enabled) run of the render
orchestration every object — those marked rendered included — is left with
`hide_render = True`: all objects are hidden before the per-object mask
loop, each rendered object is re-hidden right after its mask render, and no
later stage restores visibility. -/
theorem all_hidden_after_exec (objs : List AnaObj) (rx ry sm bo : Nat)
    (ms imgs : String) (ml : List Nat) (il : Bool) (fs : List String)
    (inp : RInputs) (hpre : inp.preview = false)
    (hco : inp.calculate_obstruction ≠ "F") :
    ∀ o ∈ (execRender inp (initState objs rx ry sm bo ms imgs ml il fs)).objects,
      o.hide_render = true :=
  (execRender_run objs rx ry sm bo ms imgs ml il fs inp hpre hco).2.2.1

/-- C10 witness: a concrete run with two objects, one of them present in the
ID mask, leaves both hidden. -/
theorem all_hidden_after_exec_witness :
    ((execRender ⟨false, "F", "T", [3], 1, 0⟩
        (initState [⟨3, false, true, ""⟩, ⟨4, false, true, ""⟩]
          640 480 0 0 "m-#" "i-#" [3, 4] true [])).objects).all
        (fun o => o.hide_render) = true := by
  apply List.all_eq_true.mpr
  intro o ho
  have h := all_hidden_after_exec [⟨3, false, true, ""⟩, ⟨4, false, true, ""⟩]
    640 480 0 0 "m-#" "i-#" [3, 4] true [] ⟨false, "F", "T", [3], 1, 0⟩
    rfl (by decide) o ho
  simp [h]

lemma filter_isLowRender_removeFiles (l : List String) :
    (l.map Ev.removeFile).filter isLowRender = [] := by
  induction l with
  | nil => rfl
  | cons a t ih => simp [List.filter_cons, isLowRender, ih]

/-- C2: in a full (non-preview, obstruction-enabled) run, the per-object
mask pass performs exactly one low-quality render per rendered object, in
stable input order; each such render call sees exactly one visible object
(that object), has exactly that object's alpha-mask link connected, and
writes to that object's per-object mask/image output slots.  No other stage
performs a low-quality render. -/
theorem per_object_mask_pass_spec (objs : List AnaObj) (rx ry sm bo : Nat)
    (ms imgs : String) (ml : List Nat) (il : Bool) (fs : List String)
    (inp : RInputs) (hpre : inp.preview = false)
    (hco : inp.calculate_obstruction ≠ "F") :
    (execRender inp (initState objs rx ry sm bo ms imgs ml il fs)).events.filter
        isLowRender
      = (renderedIdsOf objs inp.compimg).map (fun i => lowEv ms imgs rx ry i)
    ∧ ((execRender inp (initState objs rx ry sm bo ms imgs ml il fs)).events.filter
        isLowRender).length = (renderedIdsOf objs inp.compimg).length := by
  obtain ⟨he, -, -, -⟩ := execRender_run objs rx ry sm bo ms imgs ml il fs inp hpre hco
  have hmain : (execRender inp (initState objs rx ry sm bo ms imgs ml il fs)).events.filter
      isLowRender
      = (renderedIdsOf objs inp.compimg).map (fun i => lowEv ms imgs rx ry i) := by
    rw [he]
    have hB : ((renderedIdsOf objs inp.compimg).map
        (fun i => lowEv ms imgs rx ry i)).filter isLowRender
        = (renderedIdsOf objs inp.compimg).map (fun i => lowEv ms imgs rx ry i) := by
      apply List.filter_eq_self.mpr
      intro e hme
      obtain ⟨i, -, rfl⟩ := List.mem_map.mp hme
      rfl
    simp only [List.filter_append, hB, filter_isLowRender_removeFiles]
    have hA : [Ev.render "high" rx ry 15 12 (visibleIds objs) ml ms imgs,
        Ev.render "masks" rx ry 1 1 (visibleIds objs)
          (objs.map AnaObj.instanceId) ms imgs].filter isLowRender = [] := rfl
    have hC : [Ev.annotate true, Ev.metadata].filter isLowRender = [] := rfl
    rw [hA, hC]
    simp
  exact ⟨hmain, by rw [hmain]; simp⟩

/-- C2 witness: a concrete run with objects 3 and 4 where only id 3 appears
in the ID mask produces exactly one low render, with object 3 alone visible
and linked. -/
theorem per_object_mask_pass_spec_witness :
    (execRender ⟨false, "F", "T", [3], 1, 0⟩
        (initState [⟨3, false, true, ""⟩, ⟨4, false, true, ""⟩]
          640 480 0 0 "m-#" "i-#" [3, 4] true [])).events.filter isLowRender
      = (renderedIdsOf [⟨3, false, true, ""⟩, ⟨4, false, true, ""⟩] [3]).map
          (fun i => lowEv "m-#" "i-#" 640 480 i)
    ∧ ((execRender ⟨false, "F", "T", [3], 1, 0⟩
        (initState [⟨3, false, true, ""⟩, ⟨4, false, true, ""⟩]
          640 480 0 0 "m-#" "i-#" [3, 4] true [])).events.filter
        isLowRender).length
      = (renderedIdsOf [⟨3, false, true, ""⟩, ⟨4, false, true, ""⟩] [3]).length :=
  per_object_mask_pass_spec [⟨3, false, true, ""⟩, ⟨4, false, true, ""⟩]
    640 480 0 0 "m-#" "i-#" [3, 4] true [] ⟨false, "F", "T", [3], 1, 0⟩
    rfl (by decide)

/-- C8: in preview mode the orchestrator renders exactly once at 8 samples
and 6 bounces, forcing the resolution to 640x384 exactly when the
configured horizontal resolution exceeds 1000, copies the rendered frame to
the fixed path `preview.png`, and returns immediately: the run performs no
other render, no annotation or metadata write, no file removal, and leaves
the objects and the files on disk untouched. -/
theorem preview_spec (objs : List AnaObj) (rx ry sm bo : Nat)
    (ms imgs : String) (ml : List Nat) (il : Bool) (fs : List String)
    (inp : RInputs) (hpre : inp.preview = true) :
    (1000 < rx →
      execRender inp (initState objs rx ry sm bo ms imgs ml il fs)
        = ⟨objs, 640, 384, 8, 6, ms, imgs, ml, il, fs,
           [Ev.render "preview" 640 384 8 6 (visibleIds objs) ml ms imgs,
            Ev.copyPreview
              (imagesDir ++ padZeros 10 inp.interp ++ "-" ++ natStr inp.frame
                ++ "-RGBCamera.png")
              "preview.png"]⟩)
    ∧ (¬1000 < rx →
      execRender inp (initState objs rx ry sm bo ms imgs ml il fs)
        = ⟨objs, rx, ry, 8, 6, ms, imgs, ml, il, fs,
           [Ev.render "preview" rx ry 8 6 (visibleIds objs) ml ms imgs,
            Ev.copyPreview
              (imagesDir ++ padZeros 10 inp.interp ++ "-" ++ natStr inp.frame
                ++ "-RGBCamera.png")
              "preview.png"]⟩) := by
  constructor
  · intro h
    simp [execRender, doRender, renderUpd, initState, hpre, h]
  · intro h
    simp [execRender, doRender, renderUpd, initState, hpre, h]

/-- C8 witness: preview runs at 1920 horizontal resolution (forced to
640x384) and at 800 (left unchanged). -/
theorem preview_spec_witness :
    (execRender ⟨true, "F", "T", [], 1, 0⟩
        (initState [] 1920 1080 0 0 "m-#" "i-#" [] true [])
      = ⟨[], 640, 384, 8, 6, "m-#", "i-#", [], true, [],
         [Ev.render "preview" 640 384 8 6 (visibleIds []) [] "m-#" "i-#",
          Ev.copyPreview
            (imagesDir ++ padZeros 10 0 ++ "-" ++ natStr 1 ++ "-RGBCamera.png")
            "preview.png"]⟩)
    ∧ (execRender ⟨true, "F", "T", [], 1, 0⟩
        (initState [] 800 600 0 0 "m-#" "i-#" [] true [])
      = ⟨[], 800, 600, 8, 6, "m-#", "i-#", [], true, [],
         [Ev.render "preview" 800 600 8 6 (visibleIds []) [] "m-#" "i-#",
          Ev.copyPreview
            (imagesDir ++ padZeros 10 0 ++ "-" ++ natStr 1 ++ "-RGBCamera.png")
            "preview.png"]⟩) :=
  ⟨(preview_spec [] 1920 1080 0 0 "m-#" "i-#" [] true []
      ⟨true, "F", "T", [], 1, 0⟩ rfl).1 (by decide),
   (preview_spec [] 800 600 0 0 "m-#" "i-#" [] true []
      ⟨true, "F", "T", [], 1, 0⟩ rfl).2 (by decide)⟩

lemma execRender_chain_noobs (objs : List AnaObj) (rx ry sm bo : Nat)
    (ms imgs : String) (ml : List Nat) (il : Bool) (fs : List String)
    (inp : RInputs) (hpre : inp.preview = false)
    (hco : inp.calculate_obstruction = "F") :
    execRender inp (initState objs rx ry sm bo ms imgs ml il fs)
      = ⟨objs, rx, ry, 1, 1, ms, imgs, objs.map AnaObj.instanceId, il,
         fs ++ [compositeImageFile inp]
           ++ [maskDir ++ replaceHash ms (natStr inp.frame) ++ ".png"],
         [Ev.render "high" rx ry 15 12 (visibleIds objs) ml ms imgs,
          Ev.render "masks" rx ry 1 1 (visibleIds objs)
            (objs.map AnaObj.instanceId) ms imgs,
          Ev.annotate false, Ev.metadata]⟩ := by
  unfold execRender
  rw [hpre]
  rw [if_neg (by simp)]
  rw [if_pos hco]
  rfl

/-- C3 counterexample: with 'Calculate Obstruction' = 'F' the orchestrator
still performs a combined-mask ('masks') render — the claim that no
mask-discovery render happens when obstruction is disabled is false on the
code, because `render(resolution='masks')` runs before the obstruction
check. -/
theorem obstruction_disabled_counterexample :
    ¬((execRender ⟨false, "F", "F", [], 1, 0⟩
        (initState [] 640 480 0 0 "m-#" "i-#" [] true [])).events.countP
        isMasksRender = 0) := by
  rw [execRender_chain_noobs [] 640 480 0 0 "m-#" "i-#" [] true []
    ⟨false, "F", "F", [], 1, 0⟩ rfl rfl]
  decide

/-- C3 (amended): if obstruction is disabled ('Calculate Obstruction' =
'F'), the orchestrator terminates after CompositeRender, the unconditional
combined-mask render (which runs before the obstruction check), and a
direct annotation/metadata write — it performs no per-object mask render,
never reads the ID-mask image back or marks/hides any object, and runs no
cleanup. -/
theorem obstruction_disabled_spec (objs : List AnaObj) (rx ry sm bo : Nat)
    (ms imgs : String) (ml : List Nat) (il : Bool) (fs : List String)
    (inp : RInputs) (hpre : inp.preview = false)
    (hco : inp.calculate_obstruction = "F") :
    (execRender inp (initState objs rx ry sm bo ms imgs ml il fs)).events
      = [Ev.render "high" rx ry 15 12 (visibleIds objs) ml ms imgs,
         Ev.render "masks" rx ry 1 1 (visibleIds objs)
           (objs.map AnaObj.instanceId) ms imgs,
         Ev.annotate false, Ev.metadata]
    ∧ (∀ e ∈ (execRender inp (initState objs rx ry sm bo ms imgs ml il fs)).events,
        isLowRender e = false)
    ∧ (∀ e ∈ (execRender inp (initState objs rx ry sm bo ms imgs ml il fs)).events,
        isRemoveFile e = false)
    ∧ (execRender inp (initState objs rx ry sm bo ms imgs ml il fs)).objects = objs := by
  rw [execRender_chain_noobs objs rx ry sm bo ms imgs ml il fs inp hpre hco]
  refine ⟨rfl, ?_, ?_, rfl⟩
  · intro e he
    simp only [List.mem_cons, List.not_mem_nil, or_false] at he
    rcases he with rfl | rfl | rfl | rfl <;> rfl
  · intro e he
    simp only [List.mem_cons, List.not_mem_nil, or_false] at he
    rcases he with rfl | rfl | rfl | rfl <;> rfl

/-- C3 witness: the amended behaviour at a concrete input. -/
theorem obstruction_disabled_spec_witness :
    (execRender ⟨false, "F", "F", [], 1, 0⟩
        (initState [] 640 480 0 0 "m-#" "i-#" [] true [])).events
      = [Ev.render "high" 640 480 15 12 (visibleIds []) [] "m-#" "i-#",
         Ev.render "masks" 640 480 1 1 (visibleIds [])
           (([] : List AnaObj).map AnaObj.instanceId) "m-#" "i-#",
         Ev.annotate false, Ev.metadata]
    ∧ (∀ e ∈ (execRender ⟨false, "F", "F", [], 1, 0⟩
        (initState [] 640 480 0 0 "m-#" "i-#" [] true [])).events,
        isLowRender e = false)
    ∧ (∀ e ∈ (execRender ⟨false, "F", "F", [], 1, 0⟩
        (initState [] 640 480 0 0 "m-#" "i-#" [] true [])).events,
        isRemoveFile e = false)
    ∧ (execRender ⟨false, "F", "F", [], 1, 0⟩
        (initState [] 640 480 0 0 "m-#" "i-#" [] true [])).objects = [] :=
  obstruction_disabled_spec [] 640 480 0 0 "m-#" "i-#" [] true []
    ⟨false, "F", "F", [], 1, 0⟩ rfl rfl

lemma replaceHash_append (a b t : String) :
    replaceHash (a ++ b) t = replaceHash a t ++ replaceHash b t := by
  unfold replaceHash
  show String.mk _ = String.mk _
  have hd : (a ++ b).data = a.data ++ b.data := rfl
  rw [hd, List.map_append, List.flatten_append]

lemma replaceHash_of_hashFree {s : String} (t : String)
    (h : ∀ c ∈ s.data, c ≠ '#') : replaceHash s t = s := by
  unfold replaceHash
  have h1 : s.data.map (fun c => if c = '#' then t.data else [c])
      = s.data.map (fun c => [c]) :=
    List.map_congr_left (fun c hc => if_neg (h c hc))
  rw [h1]
  have h2 : ∀ l : List Char, (l.map (fun c => [c])).flatten = l := by
    intro l
    induction l with
    | nil => rfl
    | cons c rest ih => simp [ih]
  rw [h2]

lemma digChar_ne_hash {d : Nat} (h : d < 10) : digChar d ≠ '#' := by
  interval_cases d <;> decide

lemma natRepr_ne_hash (n : Nat) : ∀ c ∈ natRepr n, c ≠ '#' := by
  induction n using Nat.strong_induction_on with
  | _ n ih =>
      intro c hc
      rw [natRepr] at hc
      by_cases h : n < 10
      · rw [if_pos h] at hc
        simp only [List.mem_singleton] at hc
        exact hc ▸ digChar_ne_hash h
      · rw [if_neg h] at hc
        rcases List.mem_append.mp hc with h1 | h1
        · exact ih (n / 10) (Nat.div_lt_self (by omega) (by omega)) c h1
        · simp only [List.mem_singleton] at h1
          exact h1 ▸ digChar_ne_hash (Nat.mod_lt _ (by omega))

lemma soloMaskId_hashFree (i : Nat) : ∀ c ∈ (soloMaskId i).data, c ≠ '#' := by
  intro c hc
  have hd : (soloMaskId i).data
      = "obj".data ++ (List.replicate (3 - (natRepr i).length) '0' ++ natRepr i) := rfl
  rw [hd] at hc
  rcases List.mem_append.mp hc with h1 | h1
  · have h1' : c ∈ ['o', 'b', 'j'] := h1
    simp only [List.mem_cons, List.not_mem_nil, or_false] at h1'
    rcases h1' with rfl | rfl | rfl <;> decide
  · rcases List.mem_append.mp h1 with h2 | h2
    · have := List.eq_of_mem_replicate h2
      subst this
      decide
    · exact natRepr_ne_hash i c h2

lemma dash_hashFree : ∀ c ∈ ("-" : String).data, c ≠ '#' := by decide

lemma globMatch_canonical (p : String) : globMatch p (p ++ ".png") = false := by
  unfold globMatch
  have hd : (p ++ ".png").data = p.data ++ ".png".data := rfl
  rw [hd]
  rw [Bool.eq_false_iff]
  intro hcontra
  have h1 : (p.data ++ ['-']) <+: (p.data ++ ".png".data) :=
    List.isPrefixOf_iff_prefix.mp hcontra
  have h2 : ['-'] <+: ".png".data := (List.prefix_append_right_inj p.data).mp h1
  have h3 : ".png".data = '.' :: "png".data := rfl
  rw [h3] at h2
  rcases h2 with ⟨tail, htail⟩
  simp at htail

lemma globMatch_scratch (p q : String) : globMatch p (p ++ "-" ++ q) = true := by
  unfold globMatch
  have hd : (p ++ "-" ++ q).data = (p.data ++ ['-']) ++ q.data := by
    show (p.data ++ "-".data) ++ q.data = (p.data ++ ['-']) ++ q.data
    rfl
  rw [hd]
  exact List.isPrefixOf_iff_prefix.mpr (List.prefix_append _ _)

lemma globMatch_mask_img (x y : String) :
    globMatch (maskDir ++ x) (imagesDir ++ y) = false := by
  unfold globMatch
  have h1 : (maskDir ++ x).data ++ ['-'] = 'm' :: ("asks/".data ++ x.data ++ ['-']) := by
    show ("masks/".data ++ x.data) ++ ['-'] = 'm' :: ("asks/".data ++ x.data ++ ['-'])
    simp
  have h2 : (imagesDir ++ y).data = 'i' :: ("mages/".data ++ y.data) := rfl
  rw [h1, h2]
  simp [List.isPrefixOf]

lemma globMatch_img_mask (x y : String) :
    globMatch (imagesDir ++ x) (maskDir ++ y) = false := by
  unfold globMatch
  have h1 : (imagesDir ++ x).data ++ ['-'] = 'i' :: ("mages/".data ++ x.data ++ ['-']) := by
    show ("images/".data ++ x.data) ++ ['-'] = 'i' :: ("mages/".data ++ x.data ++ ['-'])
    simp
  have h2 : (maskDir ++ y).data = 'm' :: ("asks/".data ++ y.data) := rfl
  rw [h1, h2]
  simp [List.isPrefixOf]

lemma scratch_mask_matches (ms t : String) (i : Nat) :
    globMatch (maskDir ++ replaceHash ms t)
      (maskDir ++ replaceHash (ms ++ "-" ++ soloMaskId i) t ++ ".png") = true := by
  rw [replaceHash_append, replaceHash_append]
  rw [replaceHash_of_hashFree t dash_hashFree,
    replaceHash_of_hashFree t (soloMaskId_hashFree i)]
  have h : maskDir ++ (replaceHash ms t ++ "-" ++ soloMaskId i) ++ ".png"
      = (maskDir ++ replaceHash ms t) ++ "-" ++ (soloMaskId i ++ ".png") := by
    simp [String.append_assoc]
  rw [h]
  exact globMatch_scratch _ _

lemma scratch_img_matches (imgs t : String) (i : Nat) :
    globMatch (imagesDir ++ replaceHash imgs t)
      (imagesDir ++ replaceHash (imgs ++ "-" ++ soloMaskId i) t ++ ".png") = true := by
  rw [replaceHash_append, replaceHash_append]
  rw [replaceHash_of_hashFree t dash_hashFree,
    replaceHash_of_hashFree t (soloMaskId_hashFree i)]
  have h : imagesDir ++ (replaceHash imgs t ++ "-" ++ soloMaskId i) ++ ".png"
      = (imagesDir ++ replaceHash imgs t) ++ "-" ++ (soloMaskId i ++ ".png") := by
    simp [String.append_assoc]
  rw [h]
  exact globMatch_scratch _ _

lemma globMatch_mask_imgfile (a b : String) :
    globMatch (maskDir ++ a) (imagesDir ++ b) = false :=
  globMatch_mask_img a b

lemma globMatch_img_maskfile (a b : String) :
    globMatch (imagesDir ++ a) (maskDir ++ b ++ ".png") = false := by
  have h : maskDir ++ b ++ ".png" = maskDir ++ (b ++ ".png") :=
    String.append_assoc _ _ _
  rw [h]
  exact globMatch_img_mask _ _

lemma globMatch_mask_imgscratch (a b : String) :
    globMatch (maskDir ++ a) (imagesDir ++ b ++ ".png") = false := by
  have h : imagesDir ++ b ++ ".png" = imagesDir ++ (b ++ ".png") :=
    String.append_assoc _ _ _
  rw [h]
  exact globMatch_mask_img _ _

lemma scratch_filter_nil (ms imgs : String) (fr : Nat) (ids : List Nat) :
    ((scratchFiles ms imgs fr ids).filter
      (fun f => !globMatch (maskDir ++ replaceHash ms (natStr fr)) f)).filter
      (fun f => !globMatch (imagesDir ++ replaceHash imgs (natStr fr)) f) = [] := by
  induction ids with
  | nil => rfl
  | cons i t ih =>
      simp only [scratchFiles, List.map_cons, List.flatten_cons] at ih ⊢
      rw [List.filter_append, List.filter_append]
      rw [ih]
      simp [List.filter_cons, lowFiles, scratch_mask_matches, scratch_img_matches,
        globMatch_mask_imgscratch]

/-- C9: cleanup — reached only on the non-preview, obstruction-enabled path
— removes exactly the files matching the frame's per-object mask/image glob
patterns (the base mask/image name followed by '-' and any suffix): every
per-object scratch file matches one of the two patterns and is removed,
while the two canonical outputs, the composite image and the combined mask,
remain on disk. -/
theorem cleanup_files_spec (objs : List AnaObj) (rx ry sm bo : Nat)
    (ms imgs : String) (ml : List Nat) (il : Bool) (fs : List String)
    (inp : RInputs) (hpre : inp.preview = false)
    (hco : inp.calculate_obstruction ≠ "F")
    (hcomp : globMatch (imagesDir ++ replaceHash imgs (natStr inp.frame))
      (compositeImageFile inp) = false) :
    (execRender inp (initState objs rx ry sm bo ms imgs ml il fs)).files
      = fs.filter (fun f =>
          !globMatch (maskDir ++ replaceHash ms (natStr inp.frame)) f
          && !globMatch (imagesDir ++ replaceHash imgs (natStr inp.frame)) f)
        ++ [compositeImageFile inp,
            maskDir ++ replaceHash ms (natStr inp.frame) ++ ".png"]
    ∧ (∀ f ∈ scratchFiles ms imgs inp.frame (renderedIdsOf objs inp.compimg),
        globMatch (maskDir ++ replaceHash ms (natStr inp.frame)) f = true
        ∨ globMatch (imagesDir ++ replaceHash imgs (natStr inp.frame)) f = true) := by
  obtain ⟨-, hf, -, -⟩ := execRender_run objs rx ry sm bo ms imgs ml il fs inp hpre hco
  constructor
  · rw [hf]
    have hcomp_m : globMatch (maskDir ++ replaceHash ms (natStr inp.frame))
        (compositeImageFile inp) = false := by
      unfold compositeImageFile
      exact globMatch_mask_img _ _
    have hcomb_m : globMatch (maskDir ++ replaceHash ms (natStr inp.frame))
        (maskDir ++ replaceHash ms (natStr inp.frame) ++ ".png") = false :=
      globMatch_canonical _
    have hcomb_i : globMatch (imagesDir ++ replaceHash imgs (natStr inp.frame))
        (maskDir ++ replaceHash ms (natStr inp.frame) ++ ".png") = false :=
      globMatch_img_maskfile _ _
    unfold preCleanupFiles
    rw [List.filter_append, List.filter_append, List.filter_append,
      List.filter_append, List.filter_append, List.filter_append]
    rw [scratch_filter_nil]
    simp [List.filter_cons, hcomp_m, hcomp, hcomb_m, hcomb_i, List.filter_filter]
    exact List.filter_congr (fun f hfm => Bool.and_comm _ _)
  · intro f hmem
    unfold scratchFiles at hmem
    rw [List.mem_flatten] at hmem
    obtain ⟨l, hl, hfl⟩ := hmem
    rw [List.mem_map] at hl
    obtain ⟨i, -, rfl⟩ := hl
    simp only [lowFiles, List.mem_cons, List.not_mem_nil, or_false] at hfl
    rcases hfl with rfl | rfl
    · exact Or.inl (scratch_mask_matches ms (natStr inp.frame) i)
    · exact Or.inr (scratch_img_matches imgs (natStr inp.frame) i)

lemma natStr_one : natStr 1 = "1" := by
  rw [natStr, natRepr]
  decide

lemma natStr_zero : natStr 0 = "0" := by
  rw [natStr, natRepr]
  decide

lemma natRepr_zero : natRepr 0 = ['0'] := by
  rw [natRepr]
  decide

lemma cleanup_witness_aux :
    globMatch (imagesDir ++ replaceHash "i-#" (natStr 1))
      (compositeImageFile ⟨false, "F", "T", [3], 1, 0⟩) = false := by
  simp only [compositeImageFile, padZeros, natStr_one, natStr_zero, natRepr_zero]
  decide

/-- C9 witness: a concrete full run with object 3 rendered removes the
scratch files and keeps `keep.txt`, the composite image and the combined
mask. -/
theorem cleanup_files_spec_witness :
    (execRender ⟨false, "F", "T", [3], 1, 0⟩
        (initState [⟨3, false, true, ""⟩] 640 480 0 0 "m-#" "i-#" [3] true
          ["keep.txt"])).files
      = (["keep.txt"].filter (fun f =>
          !globMatch (maskDir ++ replaceHash "m-#" (natStr 1)) f
          && !globMatch (imagesDir ++ replaceHash "i-#" (natStr 1)) f))
        ++ [compositeImageFile ⟨false, "F", "T", [3], 1, 0⟩,
            maskDir ++ replaceHash "m-#" (natStr 1) ++ ".png"]
    ∧ (∀ f ∈ scratchFiles "m-#" "i-#" 1
        (renderedIdsOf [⟨3, false, true, ""⟩] [3]),
        globMatch (maskDir ++ replaceHash "m-#" (natStr 1)) f = true
        ∨ globMatch (imagesDir ++ replaceHash "i-#" (natStr 1)) f = true) :=
  cleanup_files_spec [⟨3, false, true, ""⟩] 640 480 0 0 "m-#" "i-#" [3] true
    ["keep.txt"] ⟨false, "F", "T", [3], 1, 0⟩ rfl (by decide) cleanup_witness_aux
